import Mathlib

/-!
A shallow embedding of the core state managers of the `watchdog/atl` package:
the selector cache (`selectors.py`), the simulator pool manager
(`simulators.py`) and the run & metrics ledger (`runs.py`), all built over a
SQLite store (`db.py`).

Modelling conventions:
* Each SQLite table is a Lean `List` of records; each Python operation is a
  Lean function from `Store` (plus its explicit arguments and a `now`
  timestamp string) to `Store` paired with the operation's return value.
* A SQL `UPDATE ... WHERE p` is a `List.map` that rewrites exactly the rows
  satisfying `p`; a `SELECT ... WHERE p ... LIMIT 1` / `fetchone` is a
  `List.find?`; an `INSERT` appends a row.
* SQLite `INTEGER` columns that hold counters are `Nat` (they only ever
  increase from `DEFAULT 0`); the `REAL` column `cost_usd` is modelled as an
  exact rational `ℚ` (the arithmetic the claims exercise is exact in both).
* `CAST (x AS INTEGER)` on the nonnegative dyadic value `(bytes)*0.25`
  truncates, which is `Nat` division by 4.
* Nullable columns are `Option`; Python `None` is `none`.
* Calls to the external `xcrun simctl` inventory are modelled by passing the
  parsed inventory (a `List Device` of udid/name/state rows) as an explicit
  argument to `refresh` and `release`.  `complete` takes no such argument,
  mirroring that it never queries the inventory.
-/

/-- Does the character list `s` start with `p`? (list-level `startswith`). -/
def listStarts : List Char → List Char → Bool
  | _, [] => true
  | [], _ :: _ => false
  | a :: as, b :: bs => a == b && listStarts as bs

/-- Python `str.startswith`, computed on the underlying character list. -/
def strStarts (s p : String) : Bool := listStarts s.data p.data

/-- Python slicing `s[n:]`, computed on the underlying character list. -/
def strDrop (s : String) (n : Nat) : String := ⟨s.data.drop n⟩

/-- Is `pat` a contiguous substring of `s`? (list level). -/
def listContainsSub : List Char → List Char → Bool
  | [], pat => pat.isEmpty
  | s@(_ :: tail), pat => listStarts s pat || listContainsSub tail pat

/-- Python `pat in s` substring test. -/
def containsSub (s pat : String) : Bool := listContainsSub s.data pat.data

/-- Characters ending the authority component in `urllib.parse.urlparse`:
the netloc extends to the first `/`, `?` or `#`. -/
def netlocEnd (c : Char) : Bool := c == '/' || c == '?' || c == '#'

/-- `urlparse(url).netloc` for a URL already known to carry an
`http://`/`https://` scheme: the characters after `://` up to the first
`/`, `?` or `#`. -/
def netlocOf (afterScheme : String) : String :=
  ⟨afterScheme.data.takeWhile (fun c => !netlocEnd c)⟩

/-! ## Data model (`db.py` schema) -/

/-- One row of the `selectors` table (`db.py`, ll. 41-55).  The surrogate
`id` column is omitted: no operation reads it and `UNIQUE(domain, action)`
is the real key. -/
structure SelectorRec where
  domain : String
  action : String
  selector : String
  success_count : Nat
  fail_count : Nat
  attributes : Option String
  last_used : Option String
  last_failed : Option String
  created_at : String
  deriving Repr, DecidableEq

/-- One row of the `simulators` table (`db.py`, ll. 58-70). -/
structure Simulator where
  udid : String
  name : String
  device_type : String
  screen_size : String
  pool : String
  state : String
  current_task : Option String
  port : Option Int
  last_activity : Option String
  deriving Repr, DecidableEq

/-- One row of the `runs` table (`db.py`, ll. 73-86). -/
structure Run where
  id : String
  workflow : String
  simulator_udid : Option String
  status : String
  start_time : String
  end_time : Option String
  total_steps : Int
  current_step : Int
  run_dir : String
  deriving Repr, DecidableEq

/-- One row of the `metrics` table (`db.py`, ll. 89-110). -/
structure Metrics where
  run_id : String
  captures_light : Nat
  captures_jpeg : Nat
  captures_pdf : Nat
  bytes_light : Nat
  bytes_jpeg : Nat
  bytes_pdf : Nat
  bytes_total : Nat
  tokens_estimated : Nat
  cost_usd : ℚ
  actions_clicks : Nat
  actions_types : Nat
  actions_navigations : Nat
  actions_scrolls : Nat
  selector_hits : Nat
  selector_misses : Nat
  errors : Nat
  deriving Repr, DecidableEq

/-- The metrics row inserted by `start` (`INSERT INTO metrics (run_id)`):
every counter at its schema default. -/
def Metrics.init (run_id : String) : Metrics :=
  ⟨run_id, 0, 0, 0, 0, 0, 0, 0, 0, 0, 0, 0, 0, 0, 0, 0, 0⟩

/-- The whole SQLite database. -/
structure Store where
  selectors : List SelectorRec
  simulators : List Simulator
  runs : List Run
  metrics : List Metrics
  deriving Repr, DecidableEq

/-- The freshly initialised database (`init_db`). -/
def Store.empty : Store := ⟨[], [], [], []⟩

/-! ## Selector cache (`selectors.py`) -/

/-- `selectors._extract_domain` (ll. 11-20): inputs without an
`http://`/`https://` scheme are returned unchanged; otherwise the netloc is
taken and one leading `www.` is stripped. -/
def extract_domain (url : String) : String :=
  if strStarts url "http://" || strStarts url "https://" then
    let rest := if strStarts url "http://" then strDrop url 7 else strDrop url 8
    let domain := netlocOf rest
    if strStarts domain "www." then strDrop domain 4 else domain
  else url

/-- `selectors.learn` (ll. 23-45): update the `(domain, action)` row if one
matches (new selector, `success_count + 1`, fresh `last_used`, `COALESCE`d
attributes), else insert a fresh row with `success_count = 1`.  The
`attributes` argument stands for the already-JSON-serialised payload
(`None` when the Python argument is falsy). -/
def learn (s : Store) (action selector url : String) (attrs : Option String)
    (now : String) : Store × (String × String × String) :=
  let domain := extract_domain url
  let hit := s.selectors.any (fun r => r.domain == domain && r.action == action)
  let s' :=
    if hit then
      { s with selectors := s.selectors.map (fun r =>
          if r.domain == domain && r.action == action then
            { r with selector := selector,
                     success_count := r.success_count + 1,
                     last_used := some now,
                     attributes := match attrs with
                       | some a => some a
                       | none => r.attributes }
          else r) }
    else
      { s with selectors := s.selectors ++
          [⟨domain, action, selector, 1, 0, attrs, some now, none, now⟩] }
  (s', (domain, action, selector))

/-- The record `selectors.recall` returns (ll. 48-67); `attributes` is kept
as the raw JSON text. -/
structure RecallResult where
  selector : String
  success_count : Nat
  fail_count : Nat
  reliability : ℚ
  attributes : Option String
  deriving Repr, DecidableEq

/-- `selectors.recall` (ll. 48-67): pure lookup; reliability is
`success_count / max(1, success_count + fail_count)`.  (`recall` itself is a
reserved word here, hence the suffix.) -/
def recallSel (s : Store) (action url : String) : Option RecallResult :=
  let domain := extract_domain url
  (s.selectors.find? (fun r => r.domain == domain && r.action == action)).map
    (fun r =>
      ⟨r.selector, r.success_count, r.fail_count,
       (r.success_count : ℚ) / ((max 1 (r.success_count + r.fail_count) : Nat) : ℚ),
       r.attributes⟩)

/-- `selectors.fail` (ll. 70-82): bump `fail_count` and stamp `last_failed`
on exactly the rows matching `(domain, action, selector)`. -/
def fail (s : Store) (action selector url : String) (now : String) :
    Store × (String × String) :=
  let domain := extract_domain url
  ({ s with selectors := s.selectors.map (fun r =>
      if r.domain == domain && r.action == action && r.selector == selector then
        { r with fail_count := r.fail_count + 1, last_failed := some now }
      else r) },
   (domain, action))

/-! ## Simulator pool manager (`simulators.py`) -/

/-- One device row as parsed from `xcrun simctl list devices --json`
(udid, name, and the simctl `state` string such as `"Booted"` or
`"Shutdown"`).  The external inventory provider produces a list of these. -/
structure Device where
  udid : String
  name : String
  simState : String
  deriving Repr, DecidableEq

/-- `simulators._get_screen_size` (ll. 21-37): ordered substring rules on the
device name. -/
def _get_screen_size (name : String) : String :=
  if containsSub name "iPad" then
    if containsSub name "Pro 13" || containsSub name "Air 13" then "1032x1376"
    else if containsSub name "Pro 11" || containsSub name "Air 11" then "834x1194"
    else "820x1180"
  else if containsSub name "Pro Max" then "430x932"
  else if containsSub name "Pro" then "393x852"
  else if containsSub name "Air" then "320x693"
  else "393x852"

/-- `simulators._get_device_type` (ll. 40-42). -/
def _get_device_type (name : String) : String :=
  if containsSub name "iPad" then "iPad" else "iPhone"

/-- Python truthiness of the nullable text column `current_task`
(`None` and `""` are falsy). -/
def pyTruthy : Option String → Bool
  | none => false
  | some t => !(t == "")

/-- One iteration of `refresh`'s device loop (`simulators.py` ll. 55-95):
compute type/size/pool, map `"Booted"` to `available` else `offline`, apply
the Python pre-check that flips the to-be-inserted state to `busy` when the
existing row has a truthy `current_task`, then upsert.  On conflict the SQL
`CASE` keeps the row `busy` whenever its `current_task IS NOT NULL`,
otherwise takes the excluded (Python-computed) state; `current_task` and
`port` are not in the update list.  A fresh insert leaves `current_task`
and `port` at their `NULL` defaults. -/
def refreshDevice (st : Store) (d : Device) (now : String) : Store :=
  let device_type := _get_device_type d.name
  let screen_size := _get_screen_size d.name
  let pool := device_type ++ "-" ++ screen_size
  let extState := if d.simState == "Booted" then "available" else "offline"
  match st.simulators.find? (fun sim => sim.udid == d.udid) with
  | none =>
      { st with simulators := st.simulators ++
          [⟨d.udid, d.name, device_type, screen_size, pool, extState, none, none,
            some now⟩] }
  | some row =>
      let pyState := if pyTruthy row.current_task then "busy" else extState
      { st with simulators := st.simulators.map (fun sim =>
          if sim.udid == d.udid then
            { sim with name := d.name,
                       device_type := device_type,
                       screen_size := screen_size,
                       pool := pool,
                       state := if sim.current_task.isSome then "busy" else pyState,
                       last_activity := some now }
          else sim) }

/-- Bump the per-pool counter dictionary (`pools[pool] += 1`). -/
def bumpPool (pools : List (String × Nat)) (p : String) : List (String × Nat) :=
  if pools.any (fun q => q.1 == p) then
    pools.map (fun q => if q.1 == p then (q.1, q.2 + 1) else q)
  else pools ++ [(p, 1)]

/-- `simulators.refresh` (ll. 45-97) applied to the parsed inventory: upsert
every reported device inside one transaction and return the device count and
per-pool tallies.  The single Python loop both updates the store and the
tallies; the two folds below compute the same pair, as the tallies do not
read the store. -/
def refresh (s : Store) (devices : List Device) (now : String) :
    Store × Nat × List (String × Nat) :=
  (devices.foldl (fun st d => refreshDevice st d now) s,
   devices.length,
   devices.foldl (fun ps d =>
     bumpPool ps (_get_device_type d.name ++ "-" ++ _get_screen_size d.name)) [])

/-- The `SELECT udid FROM simulators WHERE pool = ? AND state = 'available'
LIMIT 1` statement inside `acquire` (`simulators.py` ll. 149-153). -/
def acquireSelect (s : Store) (pool : String) : Option String :=
  (s.simulators.find? (fun sim => sim.pool == pool && sim.state == "available")).map
    (fun sim => sim.udid)

/-- The `UPDATE simulators SET state = 'busy', current_task = ?,
last_activity = ? WHERE udid = ?` statement inside `acquire`
(ll. 161-165).  Note the `WHERE` clause tests only the udid: it does not
re-check `state = 'available'`. -/
def acquireUpdate (s : Store) (udid task_id now : String) : Store :=
  { s with simulators := s.simulators.map (fun sim =>
      if sim.udid == udid then
        { sim with state := "busy", current_task := some task_id,
                   last_activity := some now }
      else sim) }

/-- `simulators.acquire` (ll. 143-167) as one sequential call: the SELECT
followed by the UPDATE. -/
def acquire (s : Store) (pool task_id now : String) : Option String × Store :=
  match acquireSelect s pool with
  | none => (none, s)
  | some udid => (some udid, acquireUpdate s udid task_id now)

/-- Two concurrent `acquire` calls under the schedule SQLite permits for
this code: caller 1 runs its SELECT, caller 2 runs its SELECT (both reads
see the same committed state, since the Python `sqlite3` driver only opens
the write transaction at the first UPDATE), caller 1 runs and commits its
UPDATE, then caller 2 runs and commits its UPDATE.  Returns what each call
returns and the final store. -/
def acquireRace (s : Store) (pool t1 t2 now1 now2 : String) :
    Option String × Option String × Store :=
  let r1 := acquireSelect s pool
  let r2 := acquireSelect s pool
  let s1 := match r1 with
    | some u => acquireUpdate s u t1 now1
    | none => s
  let s2 := match r2 with
    | some u => acquireUpdate s1 u t2 now2
    | none => s1
  (r1, r2, s2)

/-- `simulators.release` (ll. 170-192): re-query the external inventory for
the device's liveness (`available` iff some inventory row for this udid is
`"Booted"`), then set the state and clear `current_task` unconditionally. -/
def release (s : Store) (udid : String) (inventory : List Device) (now : String) :
    Store × (String × String) :=
  let new_state :=
    if inventory.any (fun d => d.udid == udid && d.simState == "Booted")
    then "available" else "offline"
  ({ s with simulators := s.simulators.map (fun sim =>
      if sim.udid == udid then
        { sim with state := new_state, current_task := none,
                   last_activity := some now }
      else sim) },
   (udid, new_state))

/-! ## Run & metrics ledger (`runs.py`) -/

/-- Python truthiness of the `Optional[int]` argument `total_steps`
(`None` and `0` are falsy). -/
def pyTruthyInt : Option Int → Bool
  | none => false
  | some t => !(t == 0)

/-- `runs.start` (ll. 12-34): inside one transaction insert the Run row
(status `running`), insert its zeroed Metrics row, and, when a simulator id
is supplied, mark that simulator busy with `current_task = run_id`.
`run_dir` is the provisioned run-scoped directory path (external filesystem
collaborator).  `none` models the transaction raising and rolling back: a
primary-key conflict on `runs`/`metrics` or, with `PRAGMA foreign_keys = ON`,
a `simulator_udid` that references no simulator row. -/
def start (s : Store) (run_id workflow : String) (simulator_udid : Option String)
    (now run_dir : String) : Option (Store × (String × String × String)) :=
  if s.runs.any (fun r => r.id == run_id) then none
  else if s.metrics.any (fun m => m.run_id == run_id) then none
  else if !(match simulator_udid with
            | some u => s.simulators.any (fun sim => sim.udid == u)
            | none => true) then none
  else
    let s1 := { s with
      runs := s.runs ++
        [⟨run_id, workflow, simulator_udid, "running", now, none, 0, 0, run_dir⟩],
      metrics := s.metrics ++ [Metrics.init run_id] }
    let s2 := match simulator_udid with
      | some u =>
          { s1 with simulators := s1.simulators.map (fun sim =>
              if sim.udid == u then
                { sim with state := "busy", current_task := some run_id }
              else sim) }
      | none => s1
    some (s2, (run_id, run_dir, "running"))

/-- `runs.complete` (ll. 37-59): inside one transaction read the run's bound
simulator, overwrite the run's status/end_time/total_steps, and, if a
simulator was bound, set it `available` and clear `current_task`.  No
inventory argument: `complete` never consults the external provider. -/
def complete (s : Store) (run_id : String) (status : String) (total_steps : Int)
    (now : String) : Store × (String × String) :=
  let sim_udid := (s.runs.find? (fun r => r.id == run_id)).bind
    (fun r => r.simulator_udid)
  let s1 := { s with runs := s.runs.map (fun r =>
      if r.id == run_id then
        { r with status := status, end_time := some now, total_steps := total_steps }
      else r) }
  let s2 := match sim_udid with
    | some u =>
        { s1 with simulators := s1.simulators.map (fun sim =>
            if sim.udid == u then
              { sim with state := "available", current_task := none }
            else sim) }
    | none => s1
  (s2, (run_id, status))

/-- `runs.progress` (ll. 62-73): set `current_step`, and `total_steps` too
only when the argument is truthy (supplied and nonzero). -/
def progress (s : Store) (run_id : String) (current_step : Int)
    (total_steps : Option Int) : Store × (String × Int) :=
  let s' :=
    if pyTruthyInt total_steps then
      { s with runs := s.runs.map (fun r =>
          if r.id == run_id then
            { r with current_step := current_step,
                     total_steps := total_steps.getD 0 }
          else r) }
    else
      { s with runs := s.runs.map (fun r =>
          if r.id == run_id then { r with current_step := current_step } else r) }
  (s', (run_id, current_step))

/-- The three capture modes the schema has columns for. -/
inductive CaptureMode | light | jpeg | pdf
  deriving Repr, DecidableEq

/-- The single `UPDATE metrics SET ...` row rewrite of `runs.add_capture`
(ll. 147-155).  Every right-hand side reads the OLD row, so the mode
counter/bytes, `bytes_total`, `tokens_estimated` and `cost_usd` are all
derived from the pre-call values plus `byte_count`:
`tokens = CAST((bytes_total + bc) * 0.25 AS INTEGER)` truncates the exact
dyadic product, i.e. `(bytes_total + bc) / 4` on naturals, while
`cost = (bytes_total + bc) * 0.25 * 3 / 1000000` is NOT floored. -/
def capUpdate (m : Metrics) (mode : CaptureMode) (byte_count : Nat) : Metrics :=
  let m1 := match mode with
    | .light => { m with captures_light := m.captures_light + 1,
                         bytes_light := m.bytes_light + byte_count }
    | .jpeg => { m with captures_jpeg := m.captures_jpeg + 1,
                        bytes_jpeg := m.bytes_jpeg + byte_count }
    | .pdf => { m with captures_pdf := m.captures_pdf + 1,
                       bytes_pdf := m.bytes_pdf + byte_count }
  { m1 with bytes_total := m.bytes_total + byte_count,
            tokens_estimated := (m.bytes_total + byte_count) / 4,
            cost_usd :=
              ((m.bytes_total + byte_count : Nat) : ℚ) * (25 / 100) * 3 / 1000000 }

/-- `runs.add_capture` (ll. 141-157): apply the rewrite to the rows whose
`run_id` matches (zero rows when the run does not exist) and report
`recorded: True`. -/
def add_capture (s : Store) (run_id : String) (mode : CaptureMode)
    (byte_count : Nat) : Store × Bool :=
  ({ s with metrics := s.metrics.map (fun m =>
      if m.run_id == run_id then capUpdate m mode byte_count else m) },
   true)

/-- The four action types the schema has columns for. -/
inductive ActionType | click | typing | navigation | scroll
  deriving Repr, DecidableEq

/-- The counter bump of `runs.add_action` (ll. 160-170): the Python builds
the column name `actions_{type}s`; here the closed enumeration picks it. -/
def actUpdate (m : Metrics) : ActionType → Metrics
  | .click => { m with actions_clicks := m.actions_clicks + 1 }
  | .typing => { m with actions_types := m.actions_types + 1 }
  | .navigation => { m with actions_navigations := m.actions_navigations + 1 }
  | .scroll => { m with actions_scrolls := m.actions_scrolls + 1 }

/-- `runs.add_action` (ll. 160-170). -/
def add_action (s : Store) (run_id : String) (a : ActionType) : Store × Bool :=
  ({ s with metrics := s.metrics.map (fun m =>
      if m.run_id == run_id then actUpdate m a else m) },
   true)

/-- `runs.get_metrics` (ll. 173-179). -/
def get_metrics (s : Store) (run_id : String) : Option Metrics :=
  s.metrics.find? (fun m => m.run_id == run_id)

/-! ## Invariants -/

/-- The §3 simulator invariant: `state = busy ⇔ current_task is set`. -/
def SimInvariant (st : Store) : Prop :=
  ∀ sim ∈ st.simulators, (sim.state = "busy" ↔ sim.current_task.isSome = true)

/-- `udid` is the `simulators` table's `PRIMARY KEY`: no two rows share it. -/
def UdidsNodup (st : Store) : Prop :=
  (st.simulators.map Simulator.udid).Nodup

/-- The precondition of the busy-stickiness property for one udid `u`: a row
for `u` exists, and every row for `u` is `busy` with a `current_task`. -/
def BusyLocked (st : Store) (u : String) : Prop :=
  (∃ sim ∈ st.simulators, sim.udid = u) ∧
  ∀ sim ∈ st.simulators, sim.udid = u →
    sim.current_task.isSome = true ∧ sim.state = "busy"

/-! ## Concrete fixtures used by the analyses below -/

/-- A run fixture used by the C2 analysis: one `running` run `"r1"`. -/
def c2Run : Run := ⟨"r1", "wf", none, "running", "t0", none, 0, 0, "runs/r1"⟩

/-- Store holding just `c2Run` and its zeroed metrics row. -/
def c2Store : Store := ⟨[], [], [c2Run], [Metrics.init "r1"]⟩

/-- The cache after one `learn("click", "#btn")` on `example.com`, starting
from no record for the pair. -/
def c6AfterLearn : Store :=
  (learn Store.empty "click" "#btn" "https://example.com" none "t1").1

/-- `c6AfterLearn` after two `fail` calls carrying the same selector. -/
def c6AfterFails : Store :=
  (fail (fail c6AfterLearn "click" "#btn" "https://example.com" "t2").1
    "click" "#btn" "https://example.com" "t3").1

/-- Cache holding one record for `(example.com, click)` whose stored
selector `"#new"` differs from the stale `"#old"`. -/
def c5Store : Store :=
  ⟨[⟨"example.com", "click", "#new", 2, 0, none, some "t1", none, "t0"⟩],
   [], [], []⟩

/-- A run fixture for the C3 analysis: one `running` run `"r1"` with its
zeroed metrics row. -/
def c3Store : Store :=
  ⟨[], [], [⟨"r1", "wf", none, "running", "t0", none, 0, 0, "runs/r1"⟩],
   [Metrics.init "r1"]⟩

/-- Pool fixture for the C1 analysis: exactly one `available` simulator
(`u1`) in pool `iPhone-393x852`, plus an `offline` one. -/
def c1Store : Store :=
  ⟨[],
   [⟨"u1", "iPhone 15 Pro", "iPhone", "393x852", "iPhone-393x852", "available",
      none, none, some "t0"⟩,
    ⟨"u2", "iPhone 15 Pro", "iPhone", "393x852", "iPhone-393x852", "offline",
      none, none, some "t0"⟩],
   [], []⟩

/-- Store fixture with an unrelated run `"r0"`, used to witness C10. -/
def c10Store : Store :=
  ⟨[], [], [⟨"r0", "wf", none, "running", "t0", none, 0, 0, "runs/r0"⟩],
   [Metrics.init "r0"]⟩

/-- Pool fixture for C7: one busy simulator holding task `"r1"`. -/
def c7Store : Store :=
  ⟨[], [⟨"u1", "iPhone 15 Pro", "iPhone", "393x852", "iPhone-393x852", "busy",
      some "r1", none, some "t0"⟩], [], []⟩

/-- Pool fixture for the C8 witness: one available simulator `"u1"` and no
runs. -/
def c8Store : Store :=
  ⟨[], [⟨"u1", "iPhone 15 Pro", "iPhone", "393x852", "iPhone-393x852",
      "available", none, none, some "t0"⟩], [], []⟩

/-- Fixture for the C4 witness: an available phone, a busy tablet holding
run `"r0"`, and that run's rows. -/
def c4Store : Store :=
  ⟨[],
   [⟨"u1", "iPhone 15 Pro", "iPhone", "393x852", "iPhone-393x852", "available",
      none, none, some "t0"⟩,
    ⟨"u2", "iPad Pro 11", "iPad", "834x1194", "iPad-834x1194", "busy",
      some "r0", none, some "t0"⟩],
   [⟨"r0", "wf", some "u2", "running", "t0", none, 0, 0, "runs/r0"⟩],
   [Metrics.init "r0"]⟩

/-- The store `start` produces on `c4Store` for the fresh run `"r1"` bound
to `"u1"`. -/
def c4StartStore : Store :=
  match start c4Store "r1" "wf" (some "u1") "tS" "runs/r1" with
  | some out => out.1
  | none => Store.empty

/-! ## General lemmas -/

theorem map_eq_self_of_mem {α : Type} {f : α → α} {l : List α}
    (h : ∀ a ∈ l, f a = a) : l.map f = l :=
  (List.map_congr_left (g := id) h).trans (List.map_id l)

/-! ## Theorems -/

/-- C2, counterexample: run `"r1"`'s status is first set to the terminal
value `"completed"`, yet a later `complete(r1, "failed")` changes it to
`"failed"` — terminal statuses are not immutable. -/
theorem C2_counterexample :
    ((complete c2Store "r1" "completed" 0 "t1").1.runs.map Run.status
        = ["completed"]) ∧
    ((complete (complete c2Store "r1" "completed" 0 "t1").1 "r1" "failed" 0
        "t2").1.runs.map Run.status = ["failed"]) := by
  decide

/-- The `runs` rows after `complete`: an unconditional rewrite of every row
whose id matches. -/
theorem complete_runs (s : Store) (rid st : String) (n : Int) (now : String) :
    (complete s rid st n now).1.runs =
      s.runs.map (fun r =>
        if r.id == rid then
          { r with status := st, end_time := some now, total_steps := n }
        else r) := by
  simp only [complete]
  split <;> rfl

/-- C2, amended: a run's status is NOT immutable once terminal.  `complete`
overwrites `status` (with `end_time` and `total_steps`) unconditionally, so
after any `complete(runId, status)` call every run row with that id carries
the status argument of that most recent call, whatever its previous status
(including `completed`/`failed`) was. -/
theorem C2_amended_status_overwrite (s : Store) (rid st : String) (n : Int)
    (now : String) :
    ∀ r ∈ (complete s rid st n now).1.runs, r.id = rid → r.status = st := by
  intro r hr _hid
  rw [complete_runs] at hr
  obtain ⟨r0, hr0, rfl⟩ := List.mem_map.mp hr
  by_cases h : (r0.id == rid) = true
  · simp only [h, if_true]
  · simp only [h, if_false] at _hid ⊢
    exact absurd _hid (by simpa using h)

/-- C2 witness: the amended theorem applied to the concrete store and the
concrete row `complete` produces there. -/
theorem C2_amended_status_overwrite_witness :
    ({ id := "r1", workflow := "wf", simulator_udid := none, status := "failed",
       start_time := "t0", end_time := some "t2", total_steps := 0,
       current_step := 0, run_dir := "runs/r1" } : Run).status = "failed" :=
  C2_amended_status_overwrite c2Store "r1" "failed" 0 "t2" _ (by decide) (by decide)

/-- C9, counterexample: `extract_domain` strips the scheme and a leading
`www.` only when the input carries an `http(s)://` scheme; the bare input
`"www.example.com"` is returned unchanged, so it does NOT map to
`"example.com"` as the claim states. -/
theorem C9_counterexample :
    extract_domain "https://www.example.com" = "example.com" ∧
    extract_domain "https://example.com" = "example.com" ∧
    extract_domain "www.example.com" ≠ "example.com" := by
  decide

/-- C9, amended: for inputs starting with `http://` or `https://` the
domain key is the netloc with one leading `"www."` stripped (so the two URL
forms map to `"example.com"`), but any input without such a scheme is
returned unchanged as the domain — in particular `"www.example.com"` keeps
its `"www."`. -/
theorem C9_amended_domain_normalization :
    (∀ url, strStarts url "http://" = false → strStarts url "https://" = false →
      extract_domain url = url) ∧
    extract_domain "https://www.example.com" = "example.com" ∧
    extract_domain "https://example.com" = "example.com" ∧
    extract_domain "www.example.com" = "www.example.com" := by
  refine ⟨?_, by decide, by decide, by decide⟩
  intro url h1 h2
  unfold extract_domain
  rw [h1, h2]
  rfl

/-- C9 witness: the scheme-less branch of the amended theorem at a concrete
input. -/
theorem C9_amended_domain_normalization_witness :
    extract_domain "example.com" = "example.com" :=
  C9_amended_domain_normalization.1 "example.com" (by decide) (by decide)

/-- C6: starting from no record for `(example.com, click)`, `learn` then
`recall` with no intervening `fail` reports reliability `1`, and after two
`fail` calls with the same selector `recall` reports reliability `1/3` —
`success_count / max(1, success_count + fail_count)` at `(1,0)` and
`(1,2)`. -/
theorem C6_reliability_examples :
    ((recallSel c6AfterLearn "click" "https://example.com").map
        (fun r => r.reliability) = some 1) ∧
    ((recallSel c6AfterFails "click" "https://example.com").map
        (fun r => r.reliability) = some (1 / 3)) := by
  constructor <;>
    norm_num [c6AfterLearn, c6AfterFails, learn, fail, recallSel, Store.empty,
      extract_domain, strStarts, listStarts, strDrop, netlocOf, netlocEnd]

/-- C5: `fail(action, selector, url)` touches only rows matching
`(domain, action, selector)`; when every row for the `(domain, action)` key
stores a different selector — e.g. because a later `learn` replaced it —
`fail` is a complete no-op on the store. -/
theorem C5_fail_requires_selector_match (s : Store)
    (action selector url now : String)
    (h : ∀ r ∈ s.selectors, r.domain = extract_domain url → r.action = action →
      r.selector ≠ selector) :
    (fail s action selector url now).1 = s := by
  simp only [fail]
  have hmap : s.selectors.map (fun r =>
      if r.domain == extract_domain url && r.action == action &&
          r.selector == selector then
        { r with fail_count := r.fail_count + 1, last_failed := some now }
      else r) = s.selectors := by
    apply map_eq_self_of_mem
    intro r hr
    by_cases hd : r.domain = extract_domain url
    · by_cases ha : r.action = action
      · have hs : (r.selector == selector) = false :=
          beq_eq_false_iff_ne.mpr (h r hr hd ha)
        simp [hs]
      · have : (r.action == action) = false := beq_eq_false_iff_ne.mpr ha
        simp [this]
    · have : (r.domain == extract_domain url) = false := beq_eq_false_iff_ne.mpr hd
      simp [this]
  rw [hmap]

/-- C5 witness: `fail` with the stale selector leaves `c5Store` unchanged. -/
theorem C5_fail_requires_selector_match_witness :
    (fail c5Store "click" "#old" "https://example.com" "t2").1 = c5Store :=
  C5_fail_requires_selector_match c5Store "click" "#old"
    "https://example.com" "t2" (by decide)

/-- C3, counterexample: after `add_capture("r1", jpeg, 5)` the stored cost is
`5 * 0.25 * 3 / 1000000 = 0.00000375`, while the claimed
`tokens_estimated * 3 / 1000000` is `1 * 3 / 1000000 = 0.000003`: the code
derives the cost from the un-floored `bytes * 0.25`, not from the floored
token count, so the two differ whenever the byte total is not a multiple
of 4. -/
theorem C3_counterexample :
    (get_metrics (add_capture c3Store "r1" CaptureMode.jpeg 5).1 "r1").map
        Metrics.cost_usd ≠
      (get_metrics (add_capture c3Store "r1" CaptureMode.jpeg 5).1 "r1").map
        (fun m => (m.tokens_estimated : ℚ) * 3 / 1000000) := by
  norm_num [c3Store, get_metrics, add_capture, capUpdate, Metrics.init]

/-- `capUpdate` never changes the row key. -/
theorem capUpdate_run_id (m : Metrics) (mode : CaptureMode) (bc : Nat) :
    (capUpdate m mode bc).run_id = m.run_id := by
  cases mode <;> rfl

/-- C3, amended: `add_capture(runId, mode, byteCount)` re-derives both
figures from the new aggregate byte total `T = old_total + byteCount`:
`tokens_estimated = ⌊T * 0.25⌋` (natural division by 4) as claimed, but
`cost_usd = T * 0.25 * 3 / 1000000` computed from the un-floored product —
it equals `tokens * 3 / 1000000` only when `T` is a multiple of 4.  The
claim's own example is such a case: `add_capture("jpeg", 4000)` then
`add_capture("light", 1000)` yields `bytes_total = 5000`,
`tokens_estimated = 1250`, `cost_usd = 0.00375`. -/
theorem C3_amended_capture_formulas :
    (∀ (s : Store) (rid : String) (mode : CaptureMode) (bc : Nat) (m : Metrics),
      get_metrics s rid = some m →
        (get_metrics (add_capture s rid mode bc).1 rid).map
            (fun m' => (m'.bytes_total, m'.tokens_estimated, m'.cost_usd)) =
          some (m.bytes_total + bc, (m.bytes_total + bc) / 4,
            ((m.bytes_total + bc : Nat) : ℚ) * (25 / 100) * 3 / 1000000)) ∧
    ((get_metrics
        (add_capture (add_capture c3Store "r1" CaptureMode.jpeg 4000).1 "r1"
          CaptureMode.light 1000).1 "r1").map
        (fun m' => (m'.bytes_total, m'.tokens_estimated, m'.cost_usd)) =
      some (5000, 1250, 375 / 100000)) := by
  constructor
  · intro s rid mode bc m h
    unfold get_metrics add_capture at *
    rw [List.find?_map]
    have hcomp : ((fun m' => m'.run_id == rid) ∘ fun m' =>
        if m'.run_id == rid then capUpdate m' mode bc else m') =
        fun m' => m'.run_id == rid := by
      funext m'
      simp only [Function.comp]
      by_cases hm : (m'.run_id == rid) = true
      · rw [if_pos hm, capUpdate_run_id]
      · rw [if_neg hm]
    rw [hcomp, h]
    have hid : m.run_id = rid := by
      have := List.find?_some h
      simpa using this
    cases mode <;> simp [hid, capUpdate]
  · norm_num [c3Store, get_metrics, add_capture, capUpdate, Metrics.init]

/-- C3 witness: the general formula applied to the concrete zeroed metrics
row with a byte count of 5. -/
theorem C3_amended_capture_formulas_witness :
    (get_metrics (add_capture c3Store "r1" CaptureMode.jpeg 5).1 "r1").map
        (fun m' => (m'.bytes_total, m'.tokens_estimated, m'.cost_usd)) =
      some (0 + 5, (0 + 5) / 4, ((0 + 5 : Nat) : ℚ) * (25 / 100) * 3 / 1000000) :=
  C3_amended_capture_formulas.1 c3Store "r1" CaptureMode.jpeg 5
    (Metrics.init "r1") rfl

/-- C1: `acquire` is a separate `SELECT` followed by an `UPDATE` keyed only
on the udid (no `state = 'available'` re-check), not a single atomic
conditional update.  Under the schedule in which both callers' SELECTs run
before either UPDATE commits — which SQLite permits for this code, since
the driver opens the write transaction only at the UPDATE — both concurrent
`acquire(pool, t1)` / `acquire(pool, t2)` calls on a pool with exactly one
available simulator return that same simulator (`u1`), the second caller's
task overwriting the first's, contradicting the claimed
exactly-one-succeeds guarantee. -/
theorem C1_acquire_race_same_simulator :
    ((c1Store.simulators.filter (fun sim => sim.state == "available")).map
        Simulator.udid = ["u1"]) ∧
    (acquireRace c1Store "iPhone-393x852" "t1" "t2" "n1" "n2").1 = some "u1" ∧
    (acquireRace c1Store "iPhone-393x852" "t1" "t2" "n1" "n2").2.1 = some "u1" ∧
    ((acquireRace c1Store "iPhone-393x852" "t1" "t2" "n1" "n2").2.2.simulators.map
        Simulator.current_task = [some "t2", none]) := by
  decide

/-- C10: for a run id with no Run row (and hence, by the `metrics → runs`
foreign key, no Metrics row), `progress`, `complete`, `add_capture` and
`add_action` all return their normal success-shaped results while every
`UPDATE` matches zero rows, leaving the store unchanged; none of them
signals absence or raises. -/
theorem C10_missing_run_noop (s : Store) (rid : String)
    (hr : ∀ r ∈ s.runs, r.id ≠ rid)
    (hm : ∀ m ∈ s.metrics, m.run_id ≠ rid) :
    ∀ (cs : Int) (ts : Option Int) (st : String) (n : Int) (now : String)
      (mode : CaptureMode) (bc : Nat) (a : ActionType),
      progress s rid cs ts = (s, (rid, cs)) ∧
      complete s rid st n now = (s, (rid, st)) ∧
      add_capture s rid mode bc = (s, true) ∧
      add_action s rid a = (s, true) := by
  intro cs ts st n now mode bc a
  have hrb : ∀ r ∈ s.runs, (r.id == rid) = false :=
    fun r h => beq_eq_false_iff_ne.mpr (hr r h)
  have hmb : ∀ m ∈ s.metrics, (m.run_id == rid) = false :=
    fun m h => beq_eq_false_iff_ne.mpr (hm m h)
  refine ⟨?_, ?_, ?_, ?_⟩
  · simp only [progress]
    split
    · rw [map_eq_self_of_mem (fun r h => by rw [if_neg (by simp [hrb r h])])]
    · rw [map_eq_self_of_mem (fun r h => by rw [if_neg (by simp [hrb r h])])]
  · have hfind : s.runs.find? (fun r => r.id == rid) = none :=
      List.find?_eq_none.mpr (fun r h => by simp [hrb r h])
    simp only [complete, hfind, Option.none_bind]
    rw [map_eq_self_of_mem (fun r h => by rw [if_neg (by simp [hrb r h])])]
  · simp only [add_capture]
    rw [map_eq_self_of_mem (fun m h => by rw [if_neg (by simp [hmb m h])])]
  · simp only [add_action]
    rw [map_eq_self_of_mem (fun m h => by rw [if_neg (by simp [hmb m h])])]

/-- C8: for a fresh run id and an existing simulator `u`, `start` binds `u`
busy with `current_task = runId` in the same atomic unit that creates the
Run and Metrics rows, and `complete(runId, "completed")` — which takes no
inventory argument at all, unlike `release` — reads the bound simulator
from the Run row and, in the same unit, sets the run terminal and returns
`u` to `available` with `current_task` cleared. -/
theorem C8_round_trip (s : Store) (rid wf u now dir now2 : String)
    (hr : ∀ r ∈ s.runs, r.id ≠ rid)
    (hm : ∀ m ∈ s.metrics, m.run_id ≠ rid)
    (hu : ∃ sim ∈ s.simulators, sim.udid = u) :
    ∃ s1, start s rid wf (some u) now dir = some (s1, (rid, dir, "running")) ∧
      (∀ sim ∈ s1.simulators, sim.udid = u →
        sim.state = "busy" ∧ sim.current_task = some rid) ∧
      (∀ sim ∈ (complete s1 rid "completed" 0 now2).1.simulators, sim.udid = u →
        sim.state = "available" ∧ sim.current_task = none) ∧
      (∀ r ∈ (complete s1 rid "completed" 0 now2).1.runs, r.id = rid →
        r.status = "completed") := by
  have hrb : ∀ r ∈ s.runs, (r.id == rid) = false :=
    fun r h => beq_eq_false_iff_ne.mpr (hr r h)
  have ha1 : s.runs.any (fun r => r.id == rid) = false := by
    rw [List.any_eq_false]
    intro r h
    simp [hrb r h]
  have ha2 : s.metrics.any (fun m => m.run_id == rid) = false := by
    rw [List.any_eq_false]
    intro m h
    simp [beq_eq_false_iff_ne.mpr (hm m h)]
  have ha3 : s.simulators.any (fun sim => sim.udid == u) = true := by
    rw [List.any_eq_true]
    obtain ⟨sim0, hmem0, hu0⟩ := hu
    exact ⟨sim0, hmem0, by simp [hu0]⟩
  refine ⟨{ s with
      runs := s.runs ++ [⟨rid, wf, some u, "running", now, none, 0, 0, dir⟩],
      metrics := s.metrics ++ [Metrics.init rid],
      simulators := s.simulators.map (fun sim =>
        if sim.udid == u then
          { sim with state := "busy", current_task := some rid }
        else sim) }, ?_, ?_, ?_, ?_⟩
  · simp [start, ha1, ha2, ha3]
  · intro sim hmem hudid
    obtain ⟨sim0, h0, rfl⟩ := List.mem_map.mp hmem
    by_cases hb : (sim0.udid == u) = true
    · simp [hb]
    · rw [if_neg hb] at hudid ⊢
      exact absurd hudid (by simpa using hb)
  · have hfind : (s.runs ++
        [(⟨rid, wf, some u, "running", now, none, 0, 0, dir⟩ : Run)]).find?
          (fun r => r.id == rid) =
        some ⟨rid, wf, some u, "running", now, none, 0, 0, dir⟩ := by
      rw [List.find?_append, List.find?_eq_none.mpr (fun r h => by simp [hrb r h])]
      simp [List.find?]
    intro sim hmem hudid
    simp only [complete, hfind, Option.some_bind] at hmem
    obtain ⟨sim1, h1, rfl⟩ := List.mem_map.mp hmem
    obtain ⟨sim0, h0, rfl⟩ := List.mem_map.mp h1
    by_cases hb : (sim0.udid == u) = true
    · simp [hb]
    · rw [if_neg hb] at hudid ⊢
      rw [if_neg (by simpa using hb)] at hudid ⊢
      exact absurd hudid (by simpa using hb)
  · intro r hmem hid
    rw [complete_runs] at hmem
    obtain ⟨r0, h0, rfl⟩ := List.mem_map.mp hmem
    rcases List.mem_append.mp h0 with h1 | h1
    · by_cases hb : (r0.id == rid) = true
      · simp [hb]
      · rw [if_neg hb] at hid ⊢
        exact absurd hid (by simpa using hb)
    · have he : r0 = ⟨rid, wf, some u, "running", now, none, 0, 0, dir⟩ := by
        simpa using h1
      subst he
      simp

/-- C8 witness: the round trip on the concrete one-simulator pool. -/
theorem C8_round_trip_witness :
    ∃ s1, start c8Store "r1" "wf" (some "u1") "tS" "runs/r1" =
        some (s1, ("r1", "runs/r1", "running")) ∧
      (∀ sim ∈ s1.simulators, sim.udid = "u1" →
        sim.state = "busy" ∧ sim.current_task = some "r1") ∧
      (∀ sim ∈ (complete s1 "r1" "completed" 0 "tE").1.simulators,
        sim.udid = "u1" → sim.state = "available" ∧ sim.current_task = none) ∧
      (∀ r ∈ (complete s1 "r1" "completed" 0 "tE").1.runs, r.id = "r1" →
        r.status = "completed") :=
  C8_round_trip c8Store "r1" "wf" "u1" "tS" "runs/r1" "tE"
    (by simp [c8Store]) (by simp [c8Store]) ⟨_, List.Mem.head _, rfl⟩

/-- `refresh`'s upsert when the device is new: insert with the externally
reported state and `NULL` task. -/
theorem refreshDevice_none {st : Store} {d : Device} {now : String}
    (h : st.simulators.find? (fun sim => sim.udid == d.udid) = none) :
    refreshDevice st d now = { st with simulators := st.simulators ++
      [⟨d.udid, d.name, _get_device_type d.name, _get_screen_size d.name,
        _get_device_type d.name ++ "-" ++ _get_screen_size d.name,
        if d.simState == "Booted" then "available" else "offline",
        none, none, some now⟩] } := by
  unfold refreshDevice
  rw [h]

/-- `refresh`'s upsert when a row exists: rewrite it, keeping `busy` when the
row (or, through the Python pre-check feeding `excluded.state`, the row the
`SELECT current_task` found) has a task. -/
theorem refreshDevice_some {st : Store} {d : Device} {now : String}
    {row : Simulator}
    (h : st.simulators.find? (fun sim => sim.udid == d.udid) = some row) :
    refreshDevice st d now = { st with simulators := st.simulators.map (fun sim =>
      if sim.udid == d.udid then
        { sim with name := d.name,
                   device_type := _get_device_type d.name,
                   screen_size := _get_screen_size d.name,
                   pool := _get_device_type d.name ++ "-" ++ _get_screen_size d.name,
                   state := if sim.current_task.isSome then "busy"
                     else if pyTruthy row.current_task then "busy"
                     else if d.simState == "Booted" then "available" else "offline",
                   last_activity := some now }
      else sim) } := by
  unfold refreshDevice
  rw [h]

/-- One upsert keeps every row of a busy-locked udid busy. -/
theorem refreshDevice_busyLocked (d : Device) (now : String) {st : Store}
    {u : String} (h : BusyLocked st u) : BusyLocked (refreshDevice st d now) u := by
  obtain ⟨⟨sim0, hmem0, hu0⟩, hall⟩ := h
  cases hrow : st.simulators.find? (fun sim => sim.udid == d.udid) with
  | none =>
      rw [refreshDevice_none hrow]
      have hdu : u ≠ d.udid := by
        intro hdu
        exact absurd (show (sim0.udid == d.udid) = true by simp [hu0, hdu])
          (by simpa using List.find?_eq_none.mp hrow sim0 hmem0)
      refine ⟨⟨sim0, List.mem_append_left _ hmem0, hu0⟩, ?_⟩
      intro sim hmem hsu
      rcases List.mem_append.mp hmem with h1 | h1
      · exact hall sim h1 hsu
      · have he : sim = ⟨d.udid, d.name, _get_device_type d.name,
            _get_screen_size d.name,
            _get_device_type d.name ++ "-" ++ _get_screen_size d.name,
            if d.simState == "Booted" then "available" else "offline",
            none, none, some now⟩ := by simpa using h1
        rw [he] at hsu
        exact absurd hsu.symm hdu
  | some row =>
      rw [refreshDevice_some hrow]
      constructor
      · refine ⟨_, List.mem_map_of_mem _ hmem0, ?_⟩
        by_cases hc : (sim0.udid == d.udid) = true
        · rw [if_pos hc]
          exact hu0
        · rw [if_neg hc]
          exact hu0
      · intro sim hmem hsu
        obtain ⟨sim1, h1, rfl⟩ := List.mem_map.mp hmem
        by_cases hc : (sim1.udid == d.udid) = true
        · rw [if_pos hc] at hsu ⊢
          have h2 := hall sim1 h1 (by simpa using hsu)
          simp [h2.1]
        · rw [if_neg hc] at hsu ⊢
          exact hall sim1 h1 hsu

/-- Folding the upsert over the whole inventory keeps a busy-locked udid
busy. -/
theorem refreshFold_busyLocked (now : String) (devices : List Device) :
    ∀ st : Store, ∀ u : String, BusyLocked st u →
      BusyLocked (devices.foldl (fun st d => refreshDevice st d now) st) u := by
  induction devices with
  | nil => exact fun st u h => h
  | cons d ds ih =>
      exact fun st u h => ih (refreshDevice st d now) u
        (refreshDevice_busyLocked d now h)

/-- C7: a simulator whose record carries a `current_task` (and is
accordingly `busy`) is still `busy` with its task intact after `refresh`,
whatever the external inventory reports for it — including a not-running
(`running = false`, i.e. non-`"Booted"`) state: the upsert's `CASE` keeps
`busy` whenever `current_task IS NOT NULL`, and a busy row is never
downgraded to `available` or `offline`. -/
theorem C7_refresh_keeps_busy (s : Store) (u now : String)
    (devices : List Device) (h : BusyLocked s u) :
    ∀ sim ∈ (refresh s devices now).1.simulators, sim.udid = u →
      sim.state = "busy" ∧ sim.current_task.isSome = true := by
  have h2 := refreshFold_busyLocked now devices s u h
  intro sim hmem hsu
  have h3 := h2.2 sim hmem hsu
  exact ⟨h3.2, h3.1⟩

/-- C7 witness: refresh with the provider reporting the device as shut down
(`running = false`) leaves the concrete record busy with its task. -/
theorem C7_refresh_keeps_busy_witness :
    ({ udid := "u1", name := "iPhone 15 Pro", device_type := "iPhone",
       screen_size := "393x852", pool := "iPhone-393x852", state := "busy",
       current_task := some "r1", port := none,
       last_activity := some "t1" } : Simulator).state = "busy" ∧
    ({ udid := "u1", name := "iPhone 15 Pro", device_type := "iPhone",
       screen_size := "393x852", pool := "iPhone-393x852", state := "busy",
       current_task := some "r1", port := none,
       last_activity := some "t1" } : Simulator).current_task.isSome = true :=
  C7_refresh_keeps_busy c7Store "u1" "t1" [⟨"u1", "iPhone 15 Pro", "Shutdown"⟩]
    ⟨⟨_, List.Mem.head _, rfl⟩, by decide⟩ _ (by decide) (by decide)

/-- `acquire` preserves `busy ⇔ task`: the row it marks busy also gets the
task. -/
theorem simInv_acquire (s : Store) (h : SimInvariant s) (pool t now : String) :
    SimInvariant (acquire s pool t now).2 := by
  unfold SimInvariant acquire at *
  cases hsel : acquireSelect s pool with
  | none => exact h
  | some udid =>
      intro sim hmem
      obtain ⟨sim0, h0, rfl⟩ := List.mem_map.mp hmem
      by_cases hb : (sim0.udid == udid) = true
      · rw [if_pos hb]
        simp
      · rw [if_neg hb]
        exact h sim0 h0

/-- `release` preserves `busy ⇔ task`: it writes a non-busy state and clears
the task together. -/
theorem simInv_release (s : Store) (h : SimInvariant s) (udid : String)
    (inventory : List Device) (now : String) :
    SimInvariant (release s udid inventory now).1 := by
  unfold SimInvariant release at *
  intro sim hmem
  obtain ⟨sim0, h0, rfl⟩ := List.mem_map.mp hmem
  by_cases hb : (sim0.udid == udid) = true
  · rw [if_pos hb]
    constructor
    · intro hst
      exfalso
      revert hst
      split <;> simp
    · simp
  · rw [if_neg hb]
    exact h sim0 h0

/-- One `refresh` upsert preserves `busy ⇔ task` (the key uniqueness of
`udid` ties the pre-checked row to the row being rewritten). -/
theorem refreshDevice_simInv {st : Store} (d : Device) (now : String)
    (hInv : SimInvariant st) (hN : UdidsNodup st) :
    SimInvariant (refreshDevice st d now) := by
  cases hrow : st.simulators.find? (fun sim => sim.udid == d.udid) with
  | none =>
      rw [refreshDevice_none hrow]
      unfold SimInvariant at *
      intro sim hmem
      rcases List.mem_append.mp hmem with h1 | h1
      · exact hInv sim h1
      · have he : sim = ⟨d.udid, d.name, _get_device_type d.name,
            _get_screen_size d.name,
            _get_device_type d.name ++ "-" ++ _get_screen_size d.name,
            if d.simState == "Booted" then "available" else "offline",
            none, none, some now⟩ := by simpa using h1
        rw [he]
        constructor
        · intro hst
          exfalso
          revert hst
          split <;> simp
        · simp
  | some row =>
      rw [refreshDevice_some hrow]
      unfold SimInvariant UdidsNodup at *
      intro sim hmem
      obtain ⟨sim0, h0, rfl⟩ := List.mem_map.mp hmem
      by_cases hb : (sim0.udid == d.udid) = true
      · rw [if_pos hb]
        cases hct : sim0.current_task with
        | some t => simp [hct]
        | none =>
            have hrow_eq : row = sim0 := by
              refine List.inj_on_of_nodup_map hN
                (List.mem_of_find?_eq_some hrow) h0 ?_
              have h1 : row.udid = d.udid := by
                simpa using List.find?_some hrow
              have h2 : sim0.udid = d.udid := by simpa using hb
              rw [h1, h2]
            rw [hrow_eq, hct]
            constructor
            · intro hst
              exfalso
              revert hst
              simp only [Option.isSome_none, Bool.false_eq_true, if_false,
                pyTruthy]
              split <;> simp
            · simp
      · rw [if_neg hb]
        exact hInv sim0 h0

/-- One `refresh` upsert preserves key uniqueness: updates keep every udid,
and an insert happens only for a udid no row has. -/
theorem refreshDevice_nodup {st : Store} (d : Device) (now : String)
    (hN : UdidsNodup st) : UdidsNodup (refreshDevice st d now) := by
  cases hrow : st.simulators.find? (fun sim => sim.udid == d.udid) with
  | none =>
      rw [refreshDevice_none hrow]
      unfold UdidsNodup at *
      rw [List.map_append, List.nodup_append]
      refine ⟨hN, List.nodup_singleton _, ?_⟩
      intro a ha hb
      obtain ⟨sim0, h0, rfl⟩ := List.mem_map.mp ha
      have : sim0.udid = d.udid := by simpa using hb
      exact absurd (show (sim0.udid == d.udid) = true by simp [this])
        (by simpa using List.find?_eq_none.mp hrow sim0 h0)
  | some row =>
      rw [refreshDevice_some hrow]
      unfold UdidsNodup at *
      rw [List.map_map]
      have hcong : ∀ sim ∈ st.simulators,
          (Simulator.udid ∘ (fun sim =>
            if sim.udid == d.udid then
              { sim with name := d.name,
                         device_type := _get_device_type d.name,
                         screen_size := _get_screen_size d.name,
                         pool := _get_device_type d.name ++ "-" ++
                           _get_screen_size d.name,
                         state := if sim.current_task.isSome then "busy"
                           else if pyTruthy row.current_task then "busy"
                           else if d.simState == "Booted" then "available"
                           else "offline",
                         last_activity := some now }
            else sim)) sim = Simulator.udid sim := by
        intro sim _
        by_cases hb : (sim.udid == d.udid) = true
        · simp only [Function.comp]
          rw [if_pos hb]
        · simp only [Function.comp]
          rw [if_neg hb]
      rwa [List.map_congr_left hcong]

/-- The whole `refresh` fold preserves `busy ⇔ task` together with key
uniqueness. -/
theorem refreshFold_simInv (now : String) (devices : List Device) :
    ∀ st : Store, SimInvariant st → UdidsNodup st →
      SimInvariant (devices.foldl (fun st d => refreshDevice st d now) st) ∧
      UdidsNodup (devices.foldl (fun st d => refreshDevice st d now) st) := by
  induction devices with
  | nil => exact fun st hI hN => ⟨hI, hN⟩
  | cons d ds ih =>
      exact fun st hI hN => ih (refreshDevice st d now)
        (refreshDevice_simInv d now hI hN) (refreshDevice_nodup d now hN)

/-- `start` preserves `busy ⇔ task`: when it binds a simulator it writes
`busy` and the task together. -/
theorem simInv_start (s : Store) (h : SimInvariant s) (rid wf : String)
    (su : Option String) (now dir : String) :
    ∀ out, start s rid wf su now dir = some out → SimInvariant out.1 := by
  intro out hout
  simp only [start] at hout
  split at hout
  · exact absurd hout (by simp)
  · split at hout
    · exact absurd hout (by simp)
    · split at hout
      · exact absurd hout (by simp)
      · cases su with
        | none =>
            injection hout with hout
            rw [← hout]
            exact h
        | some u =>
            injection hout with hout
            rw [← hout]
            unfold SimInvariant at *
            intro sim hmem
            obtain ⟨sim0, h0, rfl⟩ := List.mem_map.mp hmem
            by_cases hb : (sim0.udid == u) = true
            · rw [if_pos hb]
              simp
            · rw [if_neg hb]
              exact h sim0 h0

/-- `complete` preserves `busy ⇔ task`: when it frees the bound simulator it
writes `available` and clears the task together. -/
theorem simInv_complete (s : Store) (h : SimInvariant s) (rid stat : String)
    (n : Int) (now : String) :
    SimInvariant (complete s rid stat n now).1 := by
  unfold SimInvariant at *
  intro sim hmem
  simp only [complete] at hmem
  split at hmem
  · rename_i u hequ
    obtain ⟨sim0, h0, rfl⟩ := List.mem_map.mp hmem
    by_cases hb : (sim0.udid == u) = true
    · rw [if_pos hb]
      simp
    · rw [if_neg hb]
      exact h sim0 h0
  · exact h sim hmem

/-- C4: each of `acquire`, `release`, `refresh`, `start` and `complete`
preserves the §3 invariant `state = busy ⇔ current_task is set` for every
simulator row, given (per the `udid PRIMARY KEY` schema) that no two rows
share a udid. -/
theorem C4_ops_preserve_busy_iff_task (s : Store) (hInv : SimInvariant s)
    (hN : UdidsNodup s) :
    (∀ pool t now, SimInvariant (acquire s pool t now).2) ∧
    (∀ udid inventory now, SimInvariant (release s udid inventory now).1) ∧
    (∀ devices now, SimInvariant (refresh s devices now).1) ∧
    (∀ rid wf su now dir out, start s rid wf su now dir = some out →
      SimInvariant out.1) ∧
    (∀ rid stat n now, SimInvariant (complete s rid stat n now).1) :=
  ⟨fun pool t now => simInv_acquire s hInv pool t now,
   fun udid inventory now => simInv_release s hInv udid inventory now,
   fun devices now => (refreshFold_simInv now devices s hInv hN).1,
   fun rid wf su now dir out hout => simInv_start s hInv rid wf su now dir out hout,
   fun rid stat n now => simInv_complete s hInv rid stat n now⟩

/-- C4 witness: the five operations applied to the concrete store. -/
theorem C4_ops_preserve_busy_iff_task_witness :
    (SimInvariant c4Store ∧ UdidsNodup c4Store) ∧
    SimInvariant (acquire c4Store "iPhone-393x852" "t9" "n9").2 ∧
    SimInvariant (release c4Store "u2" [] "n9").1 ∧
    SimInvariant (refresh c4Store [⟨"u2", "iPad Pro 11", "Shutdown"⟩] "n9").1 ∧
    SimInvariant c4StartStore ∧
    SimInvariant (complete c4Store "r0" "completed" 0 "n9").1 := by
  have hI : SimInvariant c4Store := by
    unfold SimInvariant
    decide
  have hN : UdidsNodup c4Store := by
    unfold UdidsNodup
    decide
  have h := C4_ops_preserve_busy_iff_task c4Store hI hN
  exact ⟨⟨hI, hN⟩, h.1 "iPhone-393x852" "t9" "n9", h.2.1 "u2" [] "n9",
    h.2.2.1 [⟨"u2", "iPad Pro 11", "Shutdown"⟩] "n9",
    h.2.2.2.1 "r1" "wf" (some "u1") "tS" "runs/r1"
      (c4StartStore, ("r1", "runs/r1", "running")) rfl,
    h.2.2.2.2 "r0" "completed" 0 "n9"⟩

/-- C10 witness: the four operations on the absent run id `"rX"`. -/
theorem C10_missing_run_noop_witness :
    progress c10Store "rX" 3 (some 7) = (c10Store, ("rX", 3)) ∧
    complete c10Store "rX" "completed" 0 "t1" = (c10Store, ("rX", "completed")) ∧
    add_capture c10Store "rX" CaptureMode.jpeg 4000 = (c10Store, true) ∧
    add_action c10Store "rX" ActionType.click = (c10Store, true) :=
  C10_missing_run_noop c10Store "rX" (by decide) (by decide)
    3 (some 7) "completed" 0 "t1" CaptureMode.jpeg 4000 ActionType.click
